import Mathlib

/-!
# Verification of the Dataset Registry & Lifecycle Manager

Shallow embedding of `src/data_manager.py` (class `DataManager`): a registry of
dataset types, each with an ordered schema of column names, and operations
`create_template`, `validate_uploaded_data`, `merge_data`, `replace_data`,
`save_data`, `delete_data` over in-memory tables (pandas `DataFrame`s in the
source).

A `DataFrame` is modelled as an ordered list of column names together with an
ordered list of rows; each row is a list of cell values (strings, as in the CSV
backing files) aligned positionally with the column list.  File-system effects
(the live backing file and the backup files of `delete_data`) are modelled by
explicit state passing; the audit log (`log_operation`) is modelled by the list
of audit entries an operation appends.  Exception text interpolated into error
messages by the source is abstracted to fixed descriptive strings; the success
messages and the structure of every result are kept verbatim.
-/

set_option autoImplicit false

namespace DataManager

/-- A pandas `DataFrame`: ordered column names plus rows of cell values,
each row aligned positionally with `cols`. -/
structure DataFrame where
  cols : List String
  rows : List (List String)
deriving DecidableEq, Repr

/-- `pd.DataFrame()`: the empty frame with no columns and no rows. -/
def emptyDF : DataFrame := ⟨[], []⟩

/-- `df.empty` in pandas: true when any axis has length zero. -/
def isEmptyDF (df : DataFrame) : Bool :=
  df.rows.isEmpty || df.cols.isEmpty

/-- One audit-trail record appended by `log_operation`. -/
structure AuditEntry where
  operation : String
  data_type : String
  user : String
  details : String
deriving DecidableEq, Repr

/-- Result of a mutating table operation: the returned table, the success
flag, the human-readable message, and the audit entries written. -/
structure OpResult where
  table : DataFrame
  ok : Bool
  msg : String
  logs : List AuditEntry
deriving DecidableEq, Repr

/-- A dataset registry: the `self.templates` mapping from dataset-type name to
its ordered schema (`['columns']`). -/
abbrev Registry := List (String × List String)

/-- Association-list lookup: `self.templates[data_type]['columns']`, returning
`none` where Python would raise `KeyError` / fail the `in` test. -/
def lookupCols : Registry → String → Option (List String)
  | [], _ => none
  | (k, v) :: rest, d => if k = d then some v else lookupCols rest d

/-- The concrete `self.templates` of `DataManager.__init__` (schemas only;
the template filenames play no role in the verified operations). -/
def templates : Registry :=
  [("AI Tutor",
    ["Campus", "Course_Name", "Cohort", "Unit_Name", "Faculty", "Email_ID",
     "Unit_Commencement_date", "No_of_Session_IDs_created", "Total_Students_Participated",
     "Batch_size", "Student_adoption_rate", "End_Date", "No_of_students_who_filled_form",
     "Size_of_batch_when_feedback_taken", "Faculty_Avg_Score", "AI_Tutor_quality_score",
     "AI_Tutor_impact_score", "Avg_Rating_for_AI_Tutor_Tool", "Implemented_AI_Tutor",
     "Features_found_useful", "Used_Document_Creator", "Quizzes_conducted",
     "Quizzes_used_for_grading", "Quiz_outcome", "Faculty_Feedback"]),
   ("AI Mentor",
    ["Academic_Manager_Name", "Program", "Cohort", "Term", "Q1_Improvement_observed",
     "Q2_Students_motivated", "Q3_Effectiveness", "Q4_Key_observations"]),
   ("AI Impact",
    ["Student_Name", "Student_mail_id", "Program", "Cohort", "Term",
     "Placed_Not_Placed", "CGPA", "AI_Tutor_Usage", "AI_Mentor_Usage",
     "AI_TKT_Exam_Usage", "JPT_Usage", "Yoodli_Usage"]),
   ("JPT Data",
    ["Year", "Program", "Cohort", "Company", "Industry_Sector", "Company_Tier",
     "Job_role", "Location", "Students_Eligible", "Applied_Y_N", "Students_Interviewed",
     "Vacancies_Offered", "Students_Selected", "Avg_CTC", "Highest_CTC"]),
   ("Unit Performance",
    ["Unit_Name", "CP", "IA", "GA", "TE", "Total_score", "Year", "Program", "Cohort"])]

/-- Position of a column name in a column list (length when absent). -/
def colIndex : List String → String → Nat
  | [], _ => 0
  | c :: cs, t => if c = t then 0 else colIndex cs t + 1

/-- One row of `new_df[expected_columns]`: the cells of `row` (laid out by
`srcCols`) re-ordered to the target column list. -/
def projectRow (srcCols : List String) (row : List String) (tgt : List String) :
    List String :=
  tgt.map (fun c => row.getD (colIndex srcCols c) "")

/-- All rows of `df` projected onto the target column list. -/
def projectRows (df : DataFrame) (tgt : List String) : List (List String) :=
  df.rows.map (fun r => projectRow df.cols r tgt)

/-- Column selection `df[tgt]`: succeeds only when every target column is
present (otherwise pandas raises `KeyError`), and returns the frame with
exactly the target columns in the given order. -/
def projectDF (df : DataFrame) (tgt : List String) : Option DataFrame :=
  if ∀ c ∈ tgt, c ∈ df.cols then some ⟨tgt, projectRows df tgt⟩ else none

/-- One row of `pd.concat` column alignment: cells of `row` (laid out by
`srcCols`) rearranged to `tgt`, with `"NaN"` filled in for absent columns. -/
def reindexRow (srcCols : List String) (row : List String) (tgt : List String) :
    List String :=
  tgt.map (fun c => if c ∈ srcCols then row.getD (colIndex srcCols c) "NaN" else "NaN")

/-- `pd.concat([a, b], ignore_index=True)`: with identical column lists it
appends the rows; otherwise it outer-joins on column names (columns of `a`
first, then the new columns of `b`), filling missing cells with `"NaN"`. -/
def concatDF (a b : DataFrame) : DataFrame :=
  if a.cols = b.cols then ⟨a.cols, a.rows ++ b.rows⟩
  else
    let cols := a.cols ++ b.cols.filter (fun c => ¬ (c ∈ a.cols : Prop))
    ⟨cols, a.rows.map (fun r => reindexRow a.cols r cols)
            ++ b.rows.map (fun r => reindexRow b.cols r cols)⟩

/-- First-occurrence duplicate filter over a list, with an accumulator of the
values already kept. -/
def dropDupAcc {α : Type} [DecidableEq α] : List α → List α → List α
  | _, [] => []
  | seen, x :: xs =>
    if x ∈ seen then dropDupAcc seen xs else x :: dropDupAcc (x :: seen) xs

/-- `df.drop_duplicates()` on the row list: removes exact duplicate rows,
keeping the first occurrence of each. -/
def dropDuplicates {α : Type} [DecidableEq α] (l : List α) : List α :=
  dropDupAcc [] l

/-- `DataManager.create_template`: an empty frame with exactly the registered
schema columns, or `None` for an unregistered type. -/
def create_template (reg : Registry) (data_type : String) : Option DataFrame :=
  match lookupCols reg data_type with
  | some cols => some ⟨cols, []⟩
  | none => none

/-- Python set difference `set(expected) - set(uploaded)`, modelled as an
order-preserving duplicate-free list (the source's set iteration order is
unspecified; only membership is load-bearing). -/
def missingColumns (expected uploadedCols : List String) : List String :=
  dropDuplicates (expected.filter (fun c => ¬ (c ∈ uploadedCols : Prop)))

/-- `DataManager.validate_uploaded_data`: fails on an unregistered type, fails
naming the missing schema columns when any are absent, and otherwise succeeds
(extra columns only trigger an `st.warning` side effect, not a failure). -/
def validate_uploaded_data (reg : Registry) (uploaded_df : DataFrame)
    (data_type : String) : Bool × String :=
  match lookupCols reg data_type with
  | none => (false, "Invalid data type")
  | some expected =>
    let missing := missingColumns expected uploaded_df.cols
    if missing.isEmpty then (true, "Valid data structure")
    else (false, "Missing columns: " ++ String.intercalate ", " missing)

/-- Error message of the `except` branch of `merge_data` (the interpolated
exception text is abstracted). -/
def mergeErrMsg : String := "Error merging data: KeyError"

/-- `DataManager.merge_data`: projects the new frame onto the schema columns
(`KeyError` on a missing column lands in the `except` branch, which returns
the existing frame unchanged and writes no log), takes the projected frame
directly when the existing frame is empty and concatenates otherwise, then
applies `drop_duplicates` and logs a MERGE audit entry. -/
def merge_data (reg : Registry) (existing_df new_df : DataFrame)
    (data_type user_info : String) : OpResult :=
  match lookupCols reg data_type with
  | none => ⟨existing_df, false, mergeErrMsg, []⟩
  | some expected =>
    match projectDF new_df expected with
    | none => ⟨existing_df, false, mergeErrMsg, []⟩
    | some filtered =>
      let merged := if isEmptyDF existing_df then filtered
                    else concatDF existing_df filtered
      let deduped : DataFrame := ⟨merged.cols, dropDuplicates merged.rows⟩
      ⟨deduped, true, "Data merged successfully",
       [⟨"MERGE", data_type, user_info,
         "Added " ++ toString filtered.rows.length ++ " records, Total: "
           ++ toString deduped.rows.length⟩]⟩

/-- Error message of the `except` branch of `replace_data` (the interpolated
exception text is abstracted). -/
def replaceErrMsg : String := "Error replacing data: KeyError"

/-- `DataManager.replace_data`: projects the new frame onto the schema columns
and returns it (no deduplication), logging a REPLACE audit entry; on a missing
column the `except` branch returns an empty frame and writes no log. -/
def replace_data (reg : Registry) (new_df : DataFrame)
    (data_type user_info : String) : OpResult :=
  match lookupCols reg data_type with
  | none => ⟨emptyDF, false, replaceErrMsg, []⟩
  | some expected =>
    match projectDF new_df expected with
    | none => ⟨emptyDF, false, replaceErrMsg, []⟩
    | some filtered =>
      ⟨filtered, true, "Data replaced successfully",
       [⟨"REPLACE", data_type, user_info,
         "Replaced all data with " ++ toString filtered.rows.length
           ++ " new records"⟩]⟩

/-- Result of `DataManager.delete_data` over the explicit file state: the live
backing file after the call, the backup files after the call, the success
flag, the message, and the audit entries written. -/
structure DeleteResult where
  live : Option DataFrame
  backups : List DataFrame
  ok : Bool
  msg : String
  logs : List AuditEntry
deriving DecidableEq, Repr

/-- `DataManager.delete_data`: with the backing file present, it first writes a
timestamped backup of the current contents, then overwrites the live file with
the empty schema-only template and logs a DELETE entry.  `backupOk = false`
models the backup `to_csv` raising: the `except` branch returns failure and
the live file is never touched (the truncation happens only after the backup
write).  A missing file yields `"Data file not found"`. -/
def delete_data (reg : Registry) (data_type user_info : String)
    (live : Option DataFrame) (backups : List DataFrame) (backupOk : Bool) :
    DeleteResult :=
  match lookupCols reg data_type, live with
  | some cols, some df =>
    if backupOk then
      ⟨some ⟨cols, []⟩, backups ++ [df], true,
       "Data deleted successfully. Backup created",
       [⟨"DELETE", data_type, user_info, "All data deleted, backup created"⟩]⟩
    else
      ⟨some df, backups, false, "Error deleting data: IOError", []⟩
  | _, _ => ⟨live, backups, false, "Data file not found", []⟩

/-- `DataManager.load_existing_data` over the explicit file state: the file
contents when present, otherwise the empty frame. -/
def load_existing_data : Option DataFrame → DataFrame
  | some df => df
  | none => emptyDF

/-- One caller-level mutating operation on a dataset type's backing file. -/
inductive Op where
  | mergeOp (new_df : DataFrame) (user : String)
  | replaceOp (new_df : DataFrame) (user : String)
  | deleteOp (user : String) (backupOk : Bool)

/-- Apply one operation to the backing file: merge and replace persist their
result via `save_data` (which overwrites the file with the table it is given)
exactly when the operation succeeded; delete rewrites the file itself. -/
def applyOp (reg : Registry) (data_type : String) (file : Option DataFrame) :
    Op → Option DataFrame
  | .mergeOp new_df user =>
    let r := merge_data reg (load_existing_data file) new_df data_type user
    if r.ok then some r.table else file
  | .replaceOp new_df user =>
    let r := replace_data reg new_df data_type user
    if r.ok then some r.table else file
  | .deleteOp user backupOk =>
    (delete_data reg data_type user file [] backupOk).live

/-- Run a sequence of operations against the backing file. -/
def runOps (reg : Registry) (data_type : String) :
    Option DataFrame → List Op → Option DataFrame
  | file, [] => file
  | file, op :: ops => runOps reg data_type (applyOp reg data_type file op) ops

/-- The persistence invariant of claim C8: every column of the persisted table
belongs to the schema (vacuous when no file exists). -/
def ColsSubset (schema : List String) : Option DataFrame → Prop
  | some df => ∀ c ∈ df.cols, c ∈ schema
  | none => True

/-! ## Properties of the first-occurrence duplicate filter -/

theorem mem_dropDupAcc {α : Type} [DecidableEq α] (seen l : List α) (x : α) :
    x ∈ dropDupAcc seen l ↔ x ∈ l ∧ x ∉ seen := by
  induction l generalizing seen with
  | nil => simp [dropDupAcc]
  | cons y ys ih =>
    by_cases hy : y ∈ seen
    · rw [dropDupAcc, if_pos hy, ih]
      constructor
      · rintro ⟨hx, hs⟩
        exact ⟨List.mem_cons_of_mem _ hx, hs⟩
      · rintro ⟨hx, hs⟩
        rcases List.mem_cons.mp hx with rfl | hx
        · exact absurd hy hs
        · exact ⟨hx, hs⟩
    · rw [dropDupAcc, if_neg hy]
      constructor
      · intro hx
        rcases List.mem_cons.mp hx with rfl | hx
        · exact ⟨List.mem_cons_self _ _, hy⟩
        · rcases (ih _).mp hx with ⟨h1, h2⟩
          exact ⟨List.mem_cons_of_mem _ h1,
                 fun hs => h2 (List.mem_cons_of_mem _ hs)⟩
      · rintro ⟨hx, hs⟩
        rcases List.mem_cons.mp hx with rfl | hx
        · exact List.mem_cons_self _ _
        · by_cases hxy : x = y
          · subst hxy; exact List.mem_cons_self _ _
          · refine List.mem_cons_of_mem _ ((ih _).mpr ⟨hx, ?_⟩)
            intro hmem
            rcases List.mem_cons.mp hmem with h | h
            · exact hxy h
            · exact hs h

theorem nodup_dropDupAcc {α : Type} [DecidableEq α] (seen l : List α) :
    (dropDupAcc seen l).Nodup := by
  induction l generalizing seen with
  | nil => simp [dropDupAcc]
  | cons y ys ih =>
    by_cases hy : y ∈ seen
    · rw [dropDupAcc, if_pos hy]
      exact ih seen
    · rw [dropDupAcc, if_neg hy, List.nodup_cons]
      refine ⟨fun h => ?_, ih _⟩
      exact ((mem_dropDupAcc _ _ _).mp h).2 (List.mem_cons_self _ _)

theorem dropDupAcc_congr {α : Type} [DecidableEq α] {s1 s2 : List α}
    (h : ∀ x, x ∈ s1 ↔ x ∈ s2) (l : List α) :
    dropDupAcc s1 l = dropDupAcc s2 l := by
  induction l generalizing s1 s2 with
  | nil => simp [dropDupAcc]
  | cons y ys ih =>
    by_cases hy : y ∈ s1
    · rw [dropDupAcc, if_pos hy, dropDupAcc, if_pos ((h y).mp hy)]
      exact ih h
    · rw [dropDupAcc, if_neg hy, dropDupAcc, if_neg (fun hh => hy ((h y).mpr hh))]
      congr 1
      refine ih (fun x => ?_)
      simp only [List.mem_cons]
      exact or_congr Iff.rfl (h x)

theorem dropDupAcc_append {α : Type} [DecidableEq α] (seen a b : List α) :
    dropDupAcc seen (a ++ b) = dropDupAcc seen a ++ dropDupAcc (a ++ seen) b := by
  induction a generalizing seen with
  | nil => simp [dropDupAcc]
  | cons y ys ih =>
    by_cases hy : y ∈ seen
    · rw [List.cons_append, dropDupAcc, if_pos hy, dropDupAcc, if_pos hy, ih]
      congr 1
      refine dropDupAcc_congr (fun x => ?_) b
      simp only [List.cons_append, List.mem_cons, List.mem_append]
      constructor
      · rintro (h | h)
        · exact Or.inr (Or.inl h)
        · exact Or.inr (Or.inr h)
      · rintro (rfl | h | h)
        · exact Or.inr hy
        · exact Or.inl h
        · exact Or.inr h
    · rw [List.cons_append, dropDupAcc, if_neg hy, dropDupAcc, if_neg hy,
          List.cons_append, ih]
      congr 2
      refine dropDupAcc_congr (fun x => ?_) b
      simp only [List.cons_append, List.mem_cons, List.mem_append]
      tauto

theorem dropDupAcc_eq_nil {α : Type} [DecidableEq α] (seen l : List α) :
    (∀ x ∈ l, x ∈ seen) → dropDupAcc seen l = [] := by
  induction l with
  | nil => intro _; rfl
  | cons y ys ih =>
    intro h
    rw [dropDupAcc, if_pos (h y (List.mem_cons_self _ _))]
    exact ih (fun x hx => h x (List.mem_cons_of_mem _ hx))

theorem dropDupAcc_eq_self {α : Type} [DecidableEq α] (seen l : List α) :
    l.Nodup → (∀ x ∈ l, x ∉ seen) → dropDupAcc seen l = l := by
  induction l generalizing seen with
  | nil => intro _ _; rfl
  | cons y ys ih =>
    intro hn hd
    rw [dropDupAcc, if_neg (hd y (List.mem_cons_self _ _))]
    congr 1
    refine ih _ (List.Nodup.of_cons hn) (fun x hx hmem => ?_)
    rcases List.mem_cons.mp hmem with rfl | hmem
    · exact (List.nodup_cons.mp hn).1 hx
    · exact hd x (List.mem_cons_of_mem _ hx) hmem

theorem mem_dropDuplicates {α : Type} [DecidableEq α] (l : List α) (x : α) :
    x ∈ dropDuplicates l ↔ x ∈ l := by
  rw [dropDuplicates, mem_dropDupAcc]
  simp

theorem nodup_dropDuplicates {α : Type} [DecidableEq α] (l : List α) :
    (dropDuplicates l).Nodup :=
  nodup_dropDupAcc [] l

theorem dropDuplicates_of_nodup {α : Type} [DecidableEq α] (l : List α)
    (h : l.Nodup) : dropDuplicates l = l :=
  dropDupAcc_eq_self [] l h (fun x _ hx => by cases hx)

/-- Re-merging the same rows adds nothing: deduplicating the deduplicated list
followed by the original list gives back the deduplicated list. -/
theorem dropDuplicates_dedup_append_self {α : Type} [DecidableEq α] (l : List α) :
    dropDuplicates (dropDuplicates l ++ l) = dropDuplicates l := by
  rw [dropDuplicates, dropDupAcc_append]
  rw [dropDupAcc_eq_self [] (dropDuplicates l) (nodup_dropDuplicates l)
        (fun x _ hx => by cases hx)]
  rw [dropDupAcc_eq_nil _ _
        (fun x hx => List.mem_append.mpr (Or.inl ((mem_dropDuplicates l x).mpr hx)))]
  exact List.append_nil _

/-! ## Properties of column projection and validation -/

theorem mem_missingColumns (expected uploadedCols : List String) (c : String) :
    c ∈ missingColumns expected uploadedCols ↔ c ∈ expected ∧ c ∉ uploadedCols := by
  rw [missingColumns, mem_dropDuplicates, List.mem_filter]
  simp

theorem projectDF_eq_some {df : DataFrame} {tgt : List String} {f : DataFrame}
    (h : projectDF df tgt = some f) :
    f = ⟨tgt, projectRows df tgt⟩ ∧ ∀ c ∈ tgt, c ∈ df.cols := by
  by_cases hc : ∀ c ∈ tgt, c ∈ df.cols
  · rw [projectDF, if_pos hc] at h
    exact ⟨(Option.some_injective _ h).symm, hc⟩
  · rw [projectDF, if_neg hc] at h
    cases h

theorem projectDF_of_present {df : DataFrame} {tgt : List String}
    (hc : ∀ c ∈ tgt, c ∈ df.cols) :
    projectDF df tgt = some ⟨tgt, projectRows df tgt⟩ := by
  rw [projectDF, if_pos hc]

theorem projectDF_of_missing {df : DataFrame} {tgt : List String}
    (hc : ∃ c ∈ tgt, c ∉ df.cols) :
    projectDF df tgt = none := by
  rcases hc with ⟨c, hct, hcd⟩
  rw [projectDF, if_neg (fun hall => hcd (hall c hct))]

theorem concatDF_of_cols_eq {a b : DataFrame} (h : a.cols = b.cols) :
    concatDF a b = ⟨a.cols, a.rows ++ b.rows⟩ := by
  rw [concatDF, if_pos h]

theorem mem_concatDF_cols {a b : DataFrame} {c : String}
    (hc : c ∈ (concatDF a b).cols) : c ∈ a.cols ∨ c ∈ b.cols := by
  by_cases he : a.cols = b.cols
  · rw [concatDF, if_pos he] at hc
    exact Or.inl hc
  · rw [concatDF, if_neg he] at hc
    simp only [List.mem_append, List.mem_filter] at hc
    rcases hc with hc | ⟨hc, _⟩
    · exact Or.inl hc
    · exact Or.inr hc

/-- Shape of a successful merge: the projected frame, the branch on
`existing_df.empty`, the final `drop_duplicates`, and the MERGE audit log. -/
theorem merge_data_eq_of_success (reg : Registry) (existing_df new_df : DataFrame)
    (data_type user_info : String) (expected : List String)
    (h : lookupCols reg data_type = some expected)
    (hp : ∀ c ∈ expected, c ∈ new_df.cols) :
    merge_data reg existing_df new_df data_type user_info =
      (let filtered : DataFrame := ⟨expected, projectRows new_df expected⟩
       let merged := if isEmptyDF existing_df then filtered
                     else concatDF existing_df filtered
       ⟨⟨merged.cols, dropDuplicates merged.rows⟩, true, "Data merged successfully",
        [⟨"MERGE", data_type, user_info,
          "Added " ++ toString filtered.rows.length ++ " records, Total: "
            ++ toString (dropDuplicates merged.rows).length⟩]⟩) := by
  simp only [merge_data, h, projectDF_of_present hp]

/-! ## Claim theorems -/

/-- C1 counterexample: with schema `[A]`, merging `new = [{A:1},{A:1}]` into an
existing table with zero rows yields `[{A:1}]`, not the bare projection
`[{A:1},{A:1}]` claimed for the empty-existing branch: `drop_duplicates` runs
in that branch too. -/
theorem c1_counterexample :
    (merge_data [("T", ["A"])] ⟨["A"], []⟩ ⟨["A"], [["1"], ["1"]]⟩ "T" "u").table.rows
        = [["1"]] ∧
    projectRows ⟨["A"], [["1"], ["1"]]⟩ ["A"] = [["1"], ["1"]] ∧
    ([["1"]] : List (List String)) ≠ [["1"], ["1"]] := by
  refine ⟨?_, ?_, ?_⟩ <;> decide

/-- C1 (amended): on a successful merge, if the existing table is empty the
result is the projection of the new table onto the schema columns with exact
duplicate rows removed (first occurrence kept); otherwise (for an existing
table already laid out by the schema) it is the concatenation of the existing
rows followed by the projected new rows with exact duplicate rows removed,
first occurrence kept, deduplication applied to the full concatenated table. -/
theorem c1_merge_amended (reg : Registry) (existing_df new_df : DataFrame)
    (data_type user_info : String) (expected : List String)
    (h : lookupCols reg data_type = some expected)
    (hp : ∀ c ∈ expected, c ∈ new_df.cols) :
    (merge_data reg existing_df new_df data_type user_info).ok = true ∧
    (isEmptyDF existing_df = true →
        (merge_data reg existing_df new_df data_type user_info).table =
          ⟨expected, dropDuplicates (projectRows new_df expected)⟩) ∧
    (isEmptyDF existing_df = false → existing_df.cols = expected →
        (merge_data reg existing_df new_df data_type user_info).table =
          ⟨expected, dropDuplicates (existing_df.rows ++ projectRows new_df expected)⟩) := by
  rw [merge_data_eq_of_success reg existing_df new_df data_type user_info expected h hp]
  refine ⟨rfl, ?_, ?_⟩
  · intro he
    simp [he]
  · intro he hcols
    simp only [he, Bool.false_eq_true, if_false]
    show (DataFrame.mk (concatDF existing_df ⟨expected, projectRows new_df expected⟩).cols
        (dropDuplicates (concatDF existing_df ⟨expected, projectRows new_df expected⟩).rows)) = _
    rw [concatDF_of_cols_eq hcols, hcols]

/-- Witness for C1 (amended) at the claim's concrete example:
`existing = [{A:1}]`, `new = [{A:1},{A:2}]` merge to `[{A:1},{A:2}]`. -/
theorem c1_merge_amended_witness :
    (merge_data [("T", ["A"])] ⟨["A"], [["1"]]⟩ ⟨["A"], [["1"], ["2"]]⟩ "T" "u").table
      = ⟨["A"], [["1"], ["2"]]⟩ := by
  rw [(c1_merge_amended [("T", ["A"])] ⟨["A"], [["1"]]⟩ ⟨["A"], [["1"], ["2"]]⟩ "T" "u"
        ["A"] (by decide) (by decide)).2.2 (by decide) (by decide)]
  decide

/-- C9: a successful merge never returns two identical full rows, and in the
empty-existing branch the result rows are exactly the projected new rows with
duplicates removed, first occurrence kept. -/
theorem c9_merge_nodup (reg : Registry) (existing_df new_df : DataFrame)
    (data_type user_info : String) (expected : List String)
    (h : lookupCols reg data_type = some expected)
    (hp : ∀ c ∈ expected, c ∈ new_df.cols) :
    (merge_data reg existing_df new_df data_type user_info).table.rows.Nodup ∧
    (isEmptyDF existing_df = true →
        (merge_data reg existing_df new_df data_type user_info).table.rows =
          dropDuplicates (projectRows new_df expected)) := by
  rw [merge_data_eq_of_success reg existing_df new_df data_type user_info expected h hp]
  refine ⟨nodup_dropDuplicates _, ?_⟩
  intro he
  simp [he]

/-- Witness for C9: merging a new table with an internal duplicate row into an
empty existing table keeps only the first occurrence. -/
theorem c9_merge_nodup_witness :
    (merge_data [("T", ["A"])] ⟨["A"], []⟩ ⟨["A"], [["1"], ["1"], ["2"]]⟩ "T" "u").table.rows
      = dropDuplicates (projectRows ⟨["A"], [["1"], ["1"], ["2"]]⟩ ["A"]) ∧
    (merge_data [("T", ["A"])] ⟨["A"], []⟩ ⟨["A"], [["1"], ["1"], ["2"]]⟩ "T" "u").table.rows.Nodup :=
  ⟨(c9_merge_nodup [("T", ["A"])] ⟨["A"], []⟩ ⟨["A"], [["1"], ["1"], ["2"]]⟩ "T" "u"
      ["A"] (by decide) (by decide)).2 (by decide),
   (c9_merge_nodup [("T", ["A"])] ⟨["A"], []⟩ ⟨["A"], [["1"], ["1"], ["2"]]⟩ "T" "u"
      ["A"] (by decide) (by decide)).1⟩

/-- C4: for every registered dataset type, `create_template` returns a table
with zero rows whose columns are exactly the registered schema in declared
order; for every unregistered type it fails (returns `None`,
`UnknownDatasetType`). -/
theorem c4_create_template (reg : Registry) (data_type : String) :
    (∀ cols, lookupCols reg data_type = some cols →
        create_template reg data_type = some ⟨cols, []⟩) ∧
    (lookupCols reg data_type = none → create_template reg data_type = none) := by
  constructor
  · intro cols h
    simp [create_template, h]
  · intro h
    simp [create_template, h]

/-- Witness for C4 at a registered type of the concrete `templates` registry
and at an unregistered type. -/
theorem c4_create_template_witness :
    create_template templates "AI Mentor" =
      some ⟨["Academic_Manager_Name", "Program", "Cohort", "Term",
             "Q1_Improvement_observed", "Q2_Students_motivated",
             "Q3_Effectiveness", "Q4_Key_observations"], []⟩ ∧
    create_template templates "No Such Type" = none :=
  ⟨(c4_create_template templates "AI Mentor").1 _ (by decide),
   (c4_create_template templates "No Such Type").2 (by decide)⟩

/-- C3: for a registered type, `validate_uploaded_data` returns `ok = false`
whenever some schema column is missing from the uploaded table, with a message
built from the missing-column set, and that set names every missing schema
column; extra uploaded columns do not affect `ok`, and with no missing column
the result is `ok = true`. -/
theorem c3_validate (reg : Registry) (uploaded_df : DataFrame)
    (data_type : String) (expected : List String)
    (h : lookupCols reg data_type = some expected) :
    ((∃ c ∈ expected, c ∉ uploaded_df.cols) →
        (validate_uploaded_data reg uploaded_df data_type).1 = false ∧
        (validate_uploaded_data reg uploaded_df data_type).2 =
          "Missing columns: " ++
            String.intercalate ", " (missingColumns expected uploaded_df.cols) ∧
        ∀ c ∈ expected, c ∉ uploaded_df.cols →
          c ∈ missingColumns expected uploaded_df.cols) ∧
    ((∀ c ∈ expected, c ∈ uploaded_df.cols) →
        (validate_uploaded_data reg uploaded_df data_type).1 = true) := by
  constructor
  · rintro ⟨c, hc, hcu⟩
    have hmem : c ∈ missingColumns expected uploaded_df.cols :=
      (mem_missingColumns _ _ _).mpr ⟨hc, hcu⟩
    have hne : (missingColumns expected uploaded_df.cols).isEmpty = false := by
      cases hmm : missingColumns expected uploaded_df.cols with
      | nil => rw [hmm] at hmem; cases hmem
      | cons a t => rfl
    simp only [validate_uploaded_data, h, hne, Bool.false_eq_true, if_false]
    exact ⟨trivial, trivial, fun c' hc' hcu' => (mem_missingColumns _ _ _).mpr ⟨hc', hcu'⟩⟩
  · intro hall
    have hnil : missingColumns expected uploaded_df.cols = [] := by
      cases hmm : missingColumns expected uploaded_df.cols with
      | nil => rfl
      | cons a t =>
        exfalso
        have ha : a ∈ missingColumns expected uploaded_df.cols := by
          rw [hmm]; exact List.mem_cons_self _ _
        have := (mem_missingColumns _ _ _).mp ha
        exact this.2 (hall a this.1)
    simp [validate_uploaded_data, h, hnil]

/-- Witness for C3: a schema `[A, B]` with `A` missing from the upload fails
and lists `A`; an upload with both columns plus an extra one succeeds. -/
theorem c3_validate_witness :
    (validate_uploaded_data [("T", ["A", "B"])] ⟨["B", "X"], []⟩ "T").1 = false ∧
    "A" ∈ missingColumns ["A", "B"] ["B", "X"] ∧
    (validate_uploaded_data [("T", ["A", "B"])] ⟨["A", "B", "X"], []⟩ "T").1 = true := by
  refine ⟨?_, ?_, ?_⟩
  · exact ((c3_validate [("T", ["A", "B"])] ⟨["B", "X"], []⟩ "T" ["A", "B"]
      (by decide)).1 ⟨"A", by decide, by decide⟩).1
  · exact ((c3_validate [("T", ["A", "B"])] ⟨["B", "X"], []⟩ "T" ["A", "B"]
      (by decide)).1 ⟨"A", by decide, by decide⟩).2.2 "A" (by decide) (by decide)
  · exact (c3_validate [("T", ["A", "B"])] ⟨["A", "B", "X"], []⟩ "T" ["A", "B"]
      (by decide)).2 (by decide)

/-- C5: whenever a merge fails (its only failure points are the registry
lookup and the projection, in particular a required schema column absent from
the new table), it returns the original existing table unchanged with
`ok = false` and the descriptive error message, and writes no audit entry. -/
theorem c5_merge_failure (reg : Registry) (existing_df new_df : DataFrame)
    (data_type user_info : String) :
    ((merge_data reg existing_df new_df data_type user_info).ok = false →
        (merge_data reg existing_df new_df data_type user_info).table = existing_df ∧
        (merge_data reg existing_df new_df data_type user_info).msg = mergeErrMsg ∧
        (merge_data reg existing_df new_df data_type user_info).logs = []) ∧
    (∀ expected, lookupCols reg data_type = some expected →
        (∃ c ∈ expected, c ∉ new_df.cols) →
        (merge_data reg existing_df new_df data_type user_info).ok = false) := by
  constructor
  · intro hok
    cases hL : lookupCols reg data_type with
    | none => simp [merge_data, hL]
    | some expected =>
      cases hP : projectDF new_df expected with
      | none => simp [merge_data, hL, hP]
      | some filtered =>
        exfalso
        simp [merge_data, hL, hP] at hok
  · rintro expected hL ⟨c, hc, hcu⟩
    simp [merge_data, hL, projectDF_of_missing ⟨c, hc, hcu⟩]

/-- Witness for C5: schema `[A, B]` with column `B` absent from the new table;
the existing table comes back unchanged, with no audit entry. -/
theorem c5_merge_failure_witness :
    (merge_data [("T", ["A", "B"])] ⟨["A", "B"], [["1", "2"]]⟩ ⟨["A"], [["1"]]⟩
        "T" "u").ok = false ∧
    (merge_data [("T", ["A", "B"])] ⟨["A", "B"], [["1", "2"]]⟩ ⟨["A"], [["1"]]⟩
        "T" "u").table = ⟨["A", "B"], [["1", "2"]]⟩ ∧
    (merge_data [("T", ["A", "B"])] ⟨["A", "B"], [["1", "2"]]⟩ ⟨["A"], [["1"]]⟩
        "T" "u").logs = [] := by
  have hok := (c5_merge_failure [("T", ["A", "B"])] ⟨["A", "B"], [["1", "2"]]⟩
      ⟨["A"], [["1"]]⟩ "T" "u").2 ["A", "B"] (by decide) ⟨"B", by decide, by decide⟩
  have hres := (c5_merge_failure [("T", ["A", "B"])] ⟨["A", "B"], [["1", "2"]]⟩
      ⟨["A"], [["1"]]⟩ "T" "u").1 hok
  exact ⟨hok, hres.1, hres.2.2⟩

/-- C6: `replace_data` on a new table missing a required schema column fails:
it returns the empty table with `ok = false` and the error message, and
writes no audit entry. -/
theorem c6_replace_failure (reg : Registry) (new_df : DataFrame)
    (data_type user_info : String) (expected : List String)
    (h : lookupCols reg data_type = some expected)
    (hmiss : ∃ c ∈ expected, c ∉ new_df.cols) :
    replace_data reg new_df data_type user_info =
      ⟨emptyDF, false, replaceErrMsg, []⟩ := by
  simp [replace_data, h, projectDF_of_missing hmiss]

/-- Witness for C6: schema `[A, B]` with column `B` absent from the new table. -/
theorem c6_replace_failure_witness :
    replace_data [("T", ["A", "B"])] ⟨["A"], [["1"]]⟩ "T" "u" =
      ⟨emptyDF, false, replaceErrMsg, []⟩ :=
  c6_replace_failure [("T", ["A", "B"])] ⟨["A"], [["1"]]⟩ "T" "u" ["A", "B"]
    (by decide) ⟨"B", by decide, by decide⟩

/-- C10: a successful `replace_data` performs no duplicate removal: the result
rows are exactly the rows of the new table projected onto the schema columns,
in order, and the row count equals the new table's row count. -/
theorem c10_replace_no_dedup (reg : Registry) (new_df : DataFrame)
    (data_type user_info : String) (expected : List String)
    (h : lookupCols reg data_type = some expected)
    (hp : ∀ c ∈ expected, c ∈ new_df.cols) :
    (replace_data reg new_df data_type user_info).ok = true ∧
    (replace_data reg new_df data_type user_info).table.rows =
      projectRows new_df expected ∧
    (replace_data reg new_df data_type user_info).table.rows.length =
      new_df.rows.length := by
  simp only [replace_data, h, projectDF_of_present hp]
  exact ⟨trivial, trivial, by simp [projectRows]⟩

/-- Witness for C10: a new table with an exact duplicate row keeps both rows
under replace. -/
theorem c10_replace_no_dedup_witness :
    (replace_data [("T", ["A"])] ⟨["A"], [["1"], ["1"]]⟩ "T" "u").table.rows.length =
      (DataFrame.mk ["A"] [["1"], ["1"]]).rows.length :=
  (c10_replace_no_dedup [("T", ["A"])] ⟨["A"], [["1"], ["1"]]⟩ "T" "u" ["A"]
    (by decide) (by decide)).2.2

/-- C7: merging a schema-matching table into an empty existing table and then
merging the same table again yields a result of identical length to the single
merge: the duplicate rows collapse and the second merge is a no-op on length. -/
theorem c7_merge_self_twice_length (reg : Registry) (t : DataFrame)
    (data_type user_info : String) (expected : List String)
    (h : lookupCols reg data_type = some expected)
    (hp : ∀ c ∈ expected, c ∈ t.cols) :
    (merge_data reg (merge_data reg emptyDF t data_type user_info).table t
        data_type user_info).table.rows.length =
      (merge_data reg emptyDF t data_type user_info).table.rows.length := by
  have h1 : (merge_data reg emptyDF t data_type user_info).table =
      ⟨expected, dropDuplicates (projectRows t expected)⟩ := by
    rw [merge_data_eq_of_success reg emptyDF t data_type user_info expected h hp]
    rfl
  rw [h1]
  rw [merge_data_eq_of_success reg ⟨expected, dropDuplicates (projectRows t expected)⟩
        t data_type user_info expected h hp]
  cases hq : isEmptyDF ⟨expected, dropDuplicates (projectRows t expected)⟩ with
  | true => simp [hq]
  | false =>
    simp only [hq, Bool.false_eq_true, if_false]
    show (dropDuplicates (concatDF ⟨expected, dropDuplicates (projectRows t expected)⟩
        ⟨expected, projectRows t expected⟩).rows).length = _
    rw [@concatDF_of_cols_eq ⟨expected, dropDuplicates (projectRows t expected)⟩
          ⟨expected, projectRows t expected⟩ rfl]
    show (dropDuplicates (dropDuplicates (projectRows t expected) ++
        projectRows t expected)).length = _
    rw [dropDuplicates_dedup_append_self]

/-- Witness for C7 at a concrete table with a duplicate row. -/
theorem c7_merge_self_twice_length_witness :
    (merge_data [("T", ["A"])]
        (merge_data [("T", ["A"])] emptyDF ⟨["A"], [["1"], ["1"], ["2"]]⟩ "T" "u").table
        ⟨["A"], [["1"], ["1"], ["2"]]⟩ "T" "u").table.rows.length =
      (merge_data [("T", ["A"])] emptyDF ⟨["A"], [["1"], ["1"], ["2"]]⟩
        "T" "u").table.rows.length :=
  c7_merge_self_twice_length [("T", ["A"])] ⟨["A"], [["1"], ["1"], ["2"]]⟩ "T" "u"
    ["A"] (by decide) (by decide)

/-- C2: deleting a registered type whose backing file holds the table `df`
writes exactly one new backup file holding exactly `df`'s rows and leaves the
live file with zero rows under the schema headers; if the backup write fails,
delete returns `ok = false` and the live file is untouched. -/
theorem c2_delete_backup (reg : Registry) (data_type user_info : String)
    (expected : List String) (df : DataFrame) (backups : List DataFrame)
    (h : lookupCols reg data_type = some expected) :
    ((delete_data reg data_type user_info (some df) backups true).ok = true ∧
     (delete_data reg data_type user_info (some df) backups true).backups =
       backups ++ [df] ∧
     (delete_data reg data_type user_info (some df) backups true).live =
       some ⟨expected, []⟩) ∧
    ((delete_data reg data_type user_info (some df) backups false).ok = false ∧
     (delete_data reg data_type user_info (some df) backups false).backups =
       backups ∧
     (delete_data reg data_type user_info (some df) backups false).live =
       some df) := by
  refine ⟨?_, ?_⟩ <;> simp [delete_data, h]

/-- Witness for C2 at a two-row backing file. -/
theorem c2_delete_backup_witness :
    ((delete_data [("T", ["A"])] "T" "u" (some ⟨["A"], [["1"], ["2"]]⟩) [] true).backups
        = [⟨["A"], [["1"], ["2"]]⟩] ∧
     (delete_data [("T", ["A"])] "T" "u" (some ⟨["A"], [["1"], ["2"]]⟩) [] true).live
        = some ⟨["A"], []⟩) ∧
    (delete_data [("T", ["A"])] "T" "u" (some ⟨["A"], [["1"], ["2"]]⟩) [] false).live
        = some ⟨["A"], [["1"], ["2"]]⟩ := by
  have hc := c2_delete_backup [("T", ["A"])] "T" "u" ["A"]
      ⟨["A"], [["1"], ["2"]]⟩ [] (by decide)
  exact ⟨⟨hc.1.2.1, hc.1.2.2⟩, hc.2.2.2⟩

/-- Columns of a successful merge come from the existing table or the schema. -/
theorem merge_data_cols_of_ok (reg : Registry) (existing_df new_df : DataFrame)
    (data_type user_info : String) (expected : List String)
    (h : lookupCols reg data_type = some expected)
    (hp : ∀ c ∈ expected, c ∈ new_df.cols) (c : String)
    (hc : c ∈ (merge_data reg existing_df new_df data_type user_info).table.cols) :
    c ∈ existing_df.cols ∨ c ∈ expected := by
  rw [merge_data_eq_of_success reg existing_df new_df data_type user_info
        expected h hp] at hc
  dsimp only at hc
  cases he : isEmptyDF existing_df with
  | true =>
    rw [he, if_pos rfl] at hc
    exact Or.inr hc
  | false =>
    rw [he, if_neg Bool.false_ne_true] at hc
    rcases mem_concatDF_cols hc with h1 | h1
    · exact Or.inl h1
    · exact Or.inr h1

/-- One operation preserves the persistence invariant of claim C8. -/
theorem colsSubset_applyOp (reg : Registry) (data_type : String)
    (schema : List String) (h : lookupCols reg data_type = some schema)
    (file : Option DataFrame) (hinv : ColsSubset schema file) (op : Op) :
    ColsSubset schema (applyOp reg data_type file op) := by
  cases op with
  | mergeOp new_df user =>
    dsimp only [applyOp]
    cases hP : projectDF new_df schema with
    | none =>
      have hok : (merge_data reg (load_existing_data file) new_df data_type user).ok
          = false := by
        simp [merge_data, h, hP]
      rw [hok, if_neg Bool.false_ne_true]
      exact hinv
    | some filtered =>
      have hp : ∀ c ∈ schema, c ∈ new_df.cols := (projectDF_eq_some hP).2
      have hok : (merge_data reg (load_existing_data file) new_df data_type user).ok
          = true := by
        rw [merge_data_eq_of_success reg (load_existing_data file) new_df data_type
              user schema h hp]
      rw [hok, if_pos rfl]
      intro c hc
      rcases merge_data_cols_of_ok reg (load_existing_data file) new_df data_type
          user schema h hp c hc with h1 | h1
      · cases file with
        | none => exact absurd h1 (List.not_mem_nil c)
        | some df => exact hinv c h1
      · exact h1
  | replaceOp new_df user =>
    dsimp only [applyOp]
    cases hP : projectDF new_df schema with
    | none =>
      have hok : (replace_data reg new_df data_type user).ok = false := by
        simp [replace_data, h, hP]
      rw [hok, if_neg Bool.false_ne_true]
      exact hinv
    | some filtered =>
      obtain ⟨hf, hp⟩ := projectDF_eq_some hP
      have hok : (replace_data reg new_df data_type user).ok = true := by
        simp [replace_data, h, hP]
      rw [hok, if_pos rfl]
      intro c hc
      have htab : (replace_data reg new_df data_type user).table = filtered := by
        simp [replace_data, h, hP]
      rw [htab, hf] at hc
      exact hc
  | deleteOp user backupOk =>
    dsimp only [applyOp]
    cases file with
    | none =>
      have : (delete_data reg data_type user none [] backupOk).live = none := by
        simp [delete_data, h]
      rw [this]
      trivial
    | some df =>
      cases backupOk with
      | true =>
        have : (delete_data reg data_type user (some df) [] true).live =
            some ⟨schema, []⟩ := by
          simp [delete_data, h]
        rw [this]
        intro c hc
        exact hc
      | false =>
        have : (delete_data reg data_type user (some df) [] false).live = some df := by
          simp [delete_data, h]
        rw [this]
        exact hinv

/-- C8: for every sequence of merge / replace / delete operations on a
registered dataset type, starting from a backing file whose columns all lie in
the schema, every persisted table's column set stays a subset of the schema:
extra new-table columns are stripped by projection before persistence and
missing schema columns abort the operation. -/
theorem c8_persisted_cols_subset (reg : Registry) (data_type : String)
    (schema : List String) (h : lookupCols reg data_type = some schema)
    (file : Option DataFrame) (hinv : ColsSubset schema file) (ops : List Op) :
    ColsSubset schema (runOps reg data_type file ops) := by
  induction ops generalizing file with
  | nil => exact hinv
  | cons op ops ih =>
    exact ih (applyOp reg data_type file op)
      (colsSubset_applyOp reg data_type schema h file hinv op)

/-- Witness for C8: a replace of a table with an extra column `C`, a merge,
and a delete, run from an absent backing file, keep the persisted columns
inside the schema `[A, B]`. -/
theorem c8_persisted_cols_subset_witness :
    ColsSubset ["A", "B"]
      (runOps [("T", ["A", "B"])] "T" none
        [Op.replaceOp ⟨["B", "A", "C"], [["b", "a", "c"]]⟩ "u",
         Op.mergeOp ⟨["A", "B"], [["x", "y"]]⟩ "u",
         Op.deleteOp "u" true]) :=
  c8_persisted_cols_subset [("T", ["A", "B"])] "T" ["A", "B"] (by decide) none
    trivial _

end DataManager
